import Mathlib

/-!
Verification development for the vasco repository (Virtual All-Sky
CorrectOr plate). The development shallowly embeds the parts of the code
that the checked properties concern: the Paired matcher
(src/matchers/counselor.py, class Counselor), the parameter handling of
the main window (src/mainwindow.py, MainWindow.getConstantsTuple and
MainWindow.minimize), and the pieces of the utilities, catalogue and
optimizer modules that those methods call. Modules that are not part of
the repository snapshot (utilities, the catalogue and sensor collections,
the optimizer driver) are modelled from the specification; each such
definition says so in its doc comment.

Points on the sky and on the sensor are pairs of reals. Numpy arrays
become lists; an in-place numpy mutation of an argument array becomes an
explicit extra component of the result holding the post-state of that
array.
-/

namespace Vasco

/-- A two-component point: (altitude or co-altitude, azimuth) on the sky,
or (x, y) on the sensor plane or the unit disk. -/
abbrev Pt : Type := ℝ × ℝ

/-- Embedding of numpy.radians applied to one scalar: degrees to radians. -/
noncomputable def radiansD (x : ℝ) : ℝ := x * Real.pi / 180

/-- Embedding of numpy.degrees applied to one scalar: radians to degrees. -/
noncomputable def degreesR (x : ℝ) : ℝ := x * 180 / Real.pi

/-- numpy.radians applied to both components of a point, as in the line
`catalogue = np.radians(catalogue)` of Counselor.compute_distances. -/
noncomputable def radiansPt (p : Pt) : Pt := (radiansD p.1, radiansD p.2)

/-- The co-altitude conversion a row undergoes in the in-place update
`observed[..., 0] = np.pi / 2 - observed[..., 0]` of
Counselor.compute_distances and Counselor.compute_vector_errors. -/
noncomputable def coaltPt (p : Pt) : Pt := (Real.pi / 2 - p.1, p.2)

/-- One catalogue star: its horizontal sky position in degrees at the
session location and time, and its validity flag. Modelled from the spec:
the Catalogue class is not under src/; per the data model a catalogue is an
ordered collection of stars, each with a spherical sky position and a
boolean valid flag (mask). The astropy conversion to altaz is external, so
the entry carries the already converted degrees directly. -/
structure CatEntry where
  altazDeg : Pt
  valid : Bool

/-- The star catalogue: an ordered collection of entries. -/
structure Catalogue where
  entries : List CatEntry

/-- Total number of catalogue entries (Catalogue.count). -/
def Catalogue.count (c : Catalogue) : ℕ := c.entries.length

/-- Number of valid (unmasked) catalogue entries (Catalogue.count_valid). -/
def Catalogue.count_valid (c : Catalogue) : ℕ :=
  (c.entries.filter (fun e => e.valid)).length

/-- The validity mask of the catalogue as a boolean list. -/
def Catalogue.mask (c : Catalogue) : List Bool :=
  c.entries.map (fun e => e.valid)

/-- Modelled from the spec: Catalogue.set_mask is not under src/. Per the
data model, a mask call reduces validity further: an entry flagged by the
new mask becomes invalid, the others keep their flag; masking never
deletes entries. -/
def Catalogue.set_mask (c : Catalogue) (m : List Bool) : Catalogue :=
  ⟨List.zipWith (fun e b => ⟨e.altazDeg, e.valid && !b⟩) c.entries m⟩

/-- Modelled from the spec: Catalogue.cull is not under src/. Per the
masking policy, cull permanently discards invalid entries, shrinking the
working set and renumbering indices. -/
def Catalogue.cull (c : Catalogue) : Catalogue :=
  ⟨c.entries.filter (fun e => e.valid)⟩

/-- Modelled from the spec: Catalogue.to_altaz_deg is not under src/. It
returns the horizontal positions, in degrees, of the valid entries when
masked is true and of all entries otherwise (the location and time
arguments of the Python method are absorbed into the stored positions). -/
def Catalogue.to_altaz_deg (c : Catalogue) (masked : Bool) : List Pt :=
  (if masked then c.entries.filter (fun e => e.valid) else c.entries).map
    (fun e => e.altazDeg)

/-- One detected sensor dot: pixel position and validity flag. -/
structure Dot where
  xy : Pt
  valid : Bool

/-- The collection of detected star dots of one sensing session
(sensor_data.stars). -/
structure SensorStars where
  dots : List Dot

/-- Total number of dots (stars.count). -/
def SensorStars.count (s : SensorStars) : ℕ := s.dots.length

/-- Number of valid dots (stars.count_valid). -/
def SensorStars.count_valid (s : SensorStars) : ℕ :=
  (s.dots.filter (fun d => d.valid)).length

/-- The validity mask of the dot collection as a boolean list. -/
def SensorStars.mask (s : SensorStars) : List Bool :=
  s.dots.map (fun d => d.valid)

/-- Modelled from the spec: the dot collection class is not under src/.
The mask assignment `self.sensor_data.stars.mask = mask` in
Counselor.mask_catalogue applies the mask to the dots exactly as
Catalogue.set_mask applies it to the catalogue: per the spec, masking one
side must mask the corresponding index on the other side identically, and
a later mask call reduces validity further. -/
def SensorStars.set_mask (s : SensorStars) (m : List Bool) : SensorStars :=
  ⟨List.zipWith (fun d b => ⟨d.xy, d.valid && !b⟩) s.dots m⟩

/-- Modelled from the spec: cull on the dot collection permanently
discards invalid dots. -/
def SensorStars.cull (s : SensorStars) : SensorStars :=
  ⟨s.dots.filter (fun d => d.valid)⟩

/-- Modelled from the spec: stars.project applies the Distortion
Projection Model pointwise to the pixel positions of the valid dots when
masked is true, of all dots otherwise. The projection object is modelled
as the sky map it implements. -/
def SensorStars.project (s : SensorStars) (proj : Pt → Pt) (masked : Bool) :
    List Pt :=
  (if masked then s.dots.filter (fun d => d.valid) else s.dots).map
    (fun d => proj d.xy)

/-- One sensing session: its star dots and its meteor track sample pixel
positions (magnitudes and frame indices play no role in the checked
properties). -/
structure SensorData where
  stars : SensorStars
  meteor : List Pt

/-- Modelled from the spec: meteor.project applies the Distortion
Projection Model pointwise to the meteor track samples. -/
def SensorData.meteorProject (sd : SensorData) (proj : Pt → Pt) : List Pt :=
  sd.meteor.map proj

/-- The Paired matcher of src/matchers/counselor.py. Its fixed pairs are
the positional correspondence of catalogue entries and sensor dots; the
position smoother starts out absent (None) and is a map on disk
coordinates once built. -/
structure Counselor where
  catalogue : Catalogue
  sensor_data : SensorData
  smoother : Option (Pt → Pt)

/-- Embedding of Counselor constructor (Counselor.init): the assertion
`sensor_data.stars.count == catalogue.count` runs before the fields
catalogue and sensor_data are assigned, so on the failing path no Paired
matcher state ever exists; the smoother field starts as None. -/
def Counselor.init (catalogue : Catalogue) (sensor_data : SensorData) :
    Except String Counselor :=
  if sensor_data.stars.count = catalogue.count then
    .ok ⟨catalogue, sensor_data, none⟩
  else
    .error "correspondence mismatch: sensor_data.stars.count == catalogue.count failed"

/-- Embedding of Counselor.count. -/
def Counselor.count (c : Counselor) : ℕ := c.catalogue.count

/-- Embedding of Counselor.mask_catalogue: `self.catalogue.set_mask(mask)`
followed by `self.sensor_data.stars.mask = mask`, the identical mask
applied to both sides. -/
def Counselor.mask_catalogue (c : Counselor) (m : List Bool) : Counselor :=
  { c with
    catalogue := c.catalogue.set_mask m
    sensor_data := { c.sensor_data with stars := c.sensor_data.stars.set_mask m } }

/-- Embedding of Counselor.mask_sensor_data: it delegates to
mask_catalogue wholesale. -/
def Counselor.mask_sensor_data (c : Counselor) (m : List Bool) : Counselor :=
  c.mask_catalogue m

/-- Modelled from the spec: the utilities module is not under src/. Per
the spec, spherical_distance computes the great-circle angular distance
between two sets of (co-altitude, azimuth) pairs; the pointwise
great-circle formula is passed in as `d`, and the utility applies it
elementwise to the two sets (a pure function of its inputs). -/
def spherical_distance (d : Pt → Pt → ℝ) (ps qs : List Pt) : List ℝ :=
  List.zipWith d ps qs

/-- Modelled from the spec: the utilities module is not under src/. Per
section 4.2 and the design notes, angular difference returns the raw
2-component (co-altitude delta, azimuth delta) vector, and the azimuth
component is not wrapped modulo 2 pi (the known lack of azimuth
wrap-around of the vector-difference utility). -/
def spherical_difference (ps qs : List Pt) : List Pt :=
  List.zipWith (fun p q => (p.1 - q.1, p.2 - q.2)) ps qs

/-- Embedding of the static method Counselor.compute_distances. The first
component is the returned array. The line
`observed[..., 0] = np.pi / 2 - observed[..., 0]` mutates the observed
argument array in place, so the post-state of observed is returned as the
second component; `catalogue = np.radians(catalogue)` only rebinds the
local name, so the catalogue argument array, returned as the third
component, is left as it was. -/
noncomputable def Counselor.compute_distances (d : Pt → Pt → ℝ)
    (observed catalogue : List Pt) : List ℝ × List Pt × List Pt :=
  let cat := catalogue.map radiansPt
  let obs := observed.map coaltPt
  (spherical_distance d obs cat, obs, catalogue)

/-- Embedding of the static method Counselor.compute_vector_errors, with
the same state convention as compute_distances: (returned array,
post-state of observed, post-state of catalogue). The method is marked
BROKEN in the source. -/
noncomputable def Counselor.compute_vector_errors
    (observed catalogue : List Pt) : List Pt × List Pt × List Pt :=
  let cat := catalogue.map radiansPt
  let obs := observed.map coaltPt
  (spherical_difference obs cat, obs, catalogue)

/-- Embedding of Counselor.errors: compute_distances applied to the
projected sensor dots and the catalogue positions in degrees (both
freshly created arrays, so only the returned array is observable). -/
noncomputable def Counselor.errors (d : Pt → Pt → ℝ) (c : Counselor)
    (proj : Pt → Pt) (masked : Bool) : List ℝ :=
  (Counselor.compute_distances d
    (c.sensor_data.stars.project proj masked)
    (c.catalogue.to_altaz_deg masked)).1

/-- Embedding of Counselor.errors_inverse: it returns
`self.errors(projection, masked)` unchanged. -/
noncomputable def Counselor.errors_inverse (d : Pt → Pt → ℝ) (c : Counselor)
    (proj : Pt → Pt) (masked : Bool) : List ℝ :=
  c.errors d proj masked

/-- Embedding of Counselor.pair: it culls both the catalogue and the
sensor dots and returns self (the same, already Paired, matcher — the
projection argument is unused). -/
def Counselor.pair (c : Counselor) (_proj : Pt → Pt) : Counselor :=
  { c with
    catalogue := c.catalogue.cull
    sensor_data := { c.sensor_data with stars := c.sensor_data.stars.cull } }

/-- Elementwise sum of two point arrays, the numpy expression `xy + dxdy`
of Counselor.correct_meteor. -/
def addPts (xs ys : List Pt) : List Pt :=
  List.zipWith (fun a b => (a.1 + b.1, a.2 + b.2)) xs ys

/-- Embedding of Counselor.correct_meteor. The unit-disk maps proj_to_disk
and disk_to_altaz live in the utilities module, not under src/, and are
passed in pointwise as p2d and d2a; the smoother is applied pointwise to
the disk points. When no smoother has been built (smoother is None) the
Python call would fail, so the embedding returns none. -/
def Counselor.correct_meteor (p2d d2a : Pt → Pt) (c : Counselor)
    (proj : Pt → Pt) : Option (List Pt) :=
  c.smoother.map (fun s =>
    let xy := (c.sensor_data.meteorProject proj).map p2d
    let dxdy := xy.map s
    (addPts xy dxdy).map d2a)

/-- The azimuth value wrapped modulo 2 pi into the half-open interval
from 0 to 2 pi, the wrapped value the spec requires azimuth differences to
be reduced to before use. -/
noncomputable def wrapTwoPi (x : ℝ) : ℝ :=
  x - 2 * Real.pi * ⌊x / (2 * Real.pi)⌋

/-- The twelve parameter spin boxes of the main window, one real value
each, angular fields stored in degrees (src/mainwindow.py,
self.param_widgets in order x0, y0, a0, A, F, V, S, D, P, Q, eps, E). -/
structure ParamWidgets where
  x0 : ℝ
  y0 : ℝ
  a0 : ℝ
  A : ℝ
  F : ℝ
  V : ℝ
  S : ℝ
  D : ℝ
  P : ℝ
  Q : ℝ
  eps : ℝ
  E : ℝ

/-- The 12-tuple of projection constants in the order the Borovicka
projection constructor takes them, angular fields in radians. -/
structure ConstantsTuple where
  x0 : ℝ
  y0 : ℝ
  a0 : ℝ
  A : ℝ
  F : ℝ
  V : ℝ
  S : ℝ
  D : ℝ
  P : ℝ
  Q : ℝ
  eps : ℝ
  E : ℝ

/-- Embedding of MainWindow.getConstantsTuple: the four angular parameters
a0, F, eps, E pass through np.radians, the other eight widget values pass
through unchanged. -/
noncomputable def MainWindow.getConstantsTuple (w : ParamWidgets) : ConstantsTuple :=
  ⟨w.x0, w.y0, radiansD w.a0, w.A, radiansD w.F, w.V, w.S, w.D, w.P, w.Q,
   radiansD w.eps, radiansD w.E⟩

/-- Embedding of the write-back half of MainWindow.minimize: the block of
setValue calls that stores result.x back into the widgets applies
np.degrees to exactly a0, F, eps, E and stores the other eight components
unchanged. -/
noncomputable def MainWindow.minimizeWriteBack (t : ConstantsTuple) : ParamWidgets :=
  ⟨t.x0, t.y0, degreesR t.a0, t.A, degreesR t.F, t.V, t.S, t.D, t.P, t.Q,
   degreesR t.eps, degreesR t.E⟩

/-- What the Calibration Optimizer returns: the fitted parameter vector
result.x and a convergence/iteration-count indicator. Modelled from the
spec: the optimizer driver (matcher.minimize) is not under src/. -/
structure MinimizeResult where
  x : ConstantsTuple
  success : Bool
  nit : ℕ

/-- The parameter vectors a bounded iterative search visits: the initial
vector followed by up to maxiter applications of the search step. -/
def iteratesList {α : Type} (step : α → α) (x0 : α) : ℕ → List α
  | 0 => [x0]
  | n + 1 => x0 :: iteratesList step (step x0) n

/-- The element of least error among a running best and a list of
candidates, ties resolved for the earlier element. -/
noncomputable def bestOf {α : Type} (f : α → ℝ) : α → List α → α
  | b, [] => b
  | b, a :: t => bestOf f (if f a < f b then a else b) t

/-- Modelled from the spec: the Calibration Optimizer (matcher.minimize)
is not under src/. Per the spec it performs a bounded iterative
derivative-free search (the step function), must return the best parameter
vector found even on non-convergence, and never raises: the result always
carries result.x together with a success flag (false signals the soft
failure of not converging below tol within the iteration budget) and the
iteration count. -/
noncomputable def Matcher.minimize (f : ConstantsTuple → ℝ)
    (step : ConstantsTuple → ConstantsTuple) (tol : ℝ)
    (x0 : ConstantsTuple) (maxiter : ℕ) : Except String MinimizeResult :=
  let best := bestOf f x0 (iteratesList step x0 maxiter)
  .ok { x := best, success := decide (f best ≤ tol), nit := maxiter }

/-- A concrete Paired matcher used to instantiate theorems with
hypotheses: two catalogue stars paired with two sensor dots, all valid,
no meteor samples, no smoother built. -/
def exampleCounselor : Counselor :=
  ⟨⟨[⟨((45 : ℝ), (0 : ℝ)), true⟩, ⟨((30 : ℝ), (90 : ℝ)), true⟩]⟩,
   ⟨⟨[⟨((1 : ℝ), (2 : ℝ)), true⟩, ⟨((3 : ℝ), (4 : ℝ)), true⟩]⟩, []⟩,
   none⟩

/-- A concrete pointwise angular distance used to instantiate theorems
that are parametric in the great-circle formula. -/
def exampleDist : Pt → Pt → ℝ := fun p q => p.1 + q.1

/- Helper lemmas. -/

/-- Filtering a list twice by the same boolean predicate is the same as
filtering it once. -/
theorem filter_idem {α : Type} (p : α → Bool) (l : List α) :
    (l.filter p).filter p = l.filter p := by
  induction l with
  | nil => rfl
  | cons a t ih => cases h : p a <;> simp [List.filter_cons, h, ih]

/-- Two lists over possibly different element types whose boolean
projections agree entrywise keep the same number of elements under the
corresponding filters. -/
theorem length_filter_eq_of_map_eq {α β : Type} (p : α → Bool) (q : β → Bool) :
    ∀ (l₁ : List α) (l₂ : List β), l₁.map p = l₂.map q →
      (l₁.filter p).length = (l₂.filter q).length := by
  intro l₁
  induction l₁ with
  | nil =>
    intro l₂ h
    cases l₂ with
    | nil => rfl
    | cons b t => simp at h
  | cons a t ih =>
    intro l₂ h
    cases l₂ with
    | nil => simp at h
    | cons b t₂ =>
      simp only [List.map_cons, List.cons.injEq] at h
      obtain ⟨h1, h2⟩ := h
      cases hpa : p a <;> cases hqb : q b <;>
        rw [hpa, hqb] at h1 <;>
        simp_all [List.filter_cons, ih t₂ h2]

/-- Combining the same new mask with two entrywise equal old masks yields
entrywise equal new masks. -/
theorem zipWith_mask_eq_of_map_eq {α β : Type} (p : α → Bool) (q : β → Bool) :
    ∀ (l₁ : List α) (l₂ : List β) (m : List Bool), l₁.map p = l₂.map q →
      List.zipWith (fun a b => p a && !b) l₁ m =
        List.zipWith (fun c b => q c && !b) l₂ m := by
  intro l₁
  induction l₁ with
  | nil =>
    intro l₂ m h
    cases l₂ with
    | nil => rfl
    | cons b t => simp at h
  | cons a t ih =>
    intro l₂ m h
    cases l₂ with
    | nil => simp at h
    | cons b t₂ =>
      simp only [List.map_cons, List.cons.injEq] at h
      obtain ⟨h1, h2⟩ := h
      cases m with
      | nil => rfl
      | cons mb mt => simp [List.zipWith, h1, ih t₂ mt h2]

/-- The mask of a catalogue after set_mask, written as a zipWith over the
old entries and the new mask. -/
theorem Catalogue.catalogueMaskAfterSet (c : Catalogue) (m : List Bool) :
    (c.set_mask m).mask =
      List.zipWith (fun e b => e.valid && !b) c.entries m := by
  simp [Catalogue.mask, Catalogue.set_mask, List.map_zipWith]

/-- The mask of a dot collection after set_mask, written as a zipWith over
the old dots and the new mask. -/
theorem SensorStars.starsMaskAfterSet (s : SensorStars) (m : List Bool) :
    (s.set_mask m).mask =
      List.zipWith (fun d b => d.valid && !b) s.dots m := by
  simp [SensorStars.mask, SensorStars.set_mask, List.map_zipWith]

/-- Converting radians back to degrees undoes converting degrees to
radians. -/
theorem degreesR_radiansD (x : ℝ) : degreesR (radiansD x) = x := by
  unfold degreesR radiansD
  field_simp

/-- C1: for a Paired matcher whose catalogue and sensor dot masks agree
entrywise (as they do from construction on, every masking operation
applying the identical mask to both sides), every mask_catalogue(mask) and
every mask_sensor_data(mask) call leaves the two masks again entrywise
equal, and in particular count_valid(catalogue) = count_valid(sensor
dots) after the call. -/
theorem C1_masking_preserves_equal_valid_counts (c : Counselor) (m : List Bool)
    (h : c.catalogue.mask = c.sensor_data.stars.mask) :
    ((c.mask_catalogue m).catalogue.mask =
        (c.mask_catalogue m).sensor_data.stars.mask ∧
      (c.mask_catalogue m).catalogue.count_valid =
        (c.mask_catalogue m).sensor_data.stars.count_valid) ∧
    ((c.mask_sensor_data m).catalogue.mask =
        (c.mask_sensor_data m).sensor_data.stars.mask ∧
      (c.mask_sensor_data m).catalogue.count_valid =
        (c.mask_sensor_data m).sensor_data.stars.count_valid) := by
  have hmap : c.catalogue.entries.map (fun e => e.valid) =
      c.sensor_data.stars.dots.map (fun d => d.valid) := h
  have hmask : (c.mask_catalogue m).catalogue.mask =
      (c.mask_catalogue m).sensor_data.stars.mask := by
    show (c.catalogue.set_mask m).mask = (c.sensor_data.stars.set_mask m).mask
    rw [Catalogue.catalogueMaskAfterSet, SensorStars.starsMaskAfterSet]
    exact zipWith_mask_eq_of_map_eq _ _ _ _ m hmap
  have hcnt : (c.mask_catalogue m).catalogue.count_valid =
      (c.mask_catalogue m).sensor_data.stars.count_valid :=
    length_filter_eq_of_map_eq _ _ _ _ hmask
  exact ⟨⟨hmask, hcnt⟩, ⟨hmask, hcnt⟩⟩

/-- Witness for C1 at a concrete Paired matcher and mask. -/
theorem C1_masking_witness :
    exampleCounselor.catalogue.mask = exampleCounselor.sensor_data.stars.mask ∧
    (((exampleCounselor.mask_catalogue [true, false]).catalogue.mask =
        (exampleCounselor.mask_catalogue [true, false]).sensor_data.stars.mask ∧
      (exampleCounselor.mask_catalogue [true, false]).catalogue.count_valid =
        (exampleCounselor.mask_catalogue [true, false]).sensor_data.stars.count_valid) ∧
    ((exampleCounselor.mask_sensor_data [true, false]).catalogue.mask =
        (exampleCounselor.mask_sensor_data [true, false]).sensor_data.stars.mask ∧
      (exampleCounselor.mask_sensor_data [true, false]).catalogue.count_valid =
        (exampleCounselor.mask_sensor_data [true, false]).sensor_data.stars.count_valid)) :=
  ⟨rfl, C1_masking_preserves_equal_valid_counts exampleCounselor [true, false] rfl⟩

/-- C2: constructing a Paired matcher from a sensor dot collection and a
catalogue of unequal counts fails with the correspondence-mismatch
assertion, and no Paired matcher value is produced on the failing path:
the constructor result is the error, never ok with some matcher whose
catalogue and sensor_data fields got assigned. -/
theorem C2_init_mismatch_rejected (catalogue : Catalogue) (sensor_data : SensorData)
    (h : sensor_data.stars.count ≠ catalogue.count) :
    Counselor.init catalogue sensor_data =
      .error "correspondence mismatch: sensor_data.stars.count == catalogue.count failed" ∧
    ∀ c : Counselor, Counselor.init catalogue sensor_data ≠ .ok c := by
  refine ⟨by simp [Counselor.init, h], fun c hc => ?_⟩
  simp [Counselor.init, h] at hc

/-- Witness for C2: one catalogue star against an empty dot collection. -/
theorem C2_init_mismatch_witness :
    (SensorData.mk ⟨[]⟩ []).stars.count ≠
      (Catalogue.mk [⟨((45 : ℝ), (0 : ℝ)), true⟩]).count ∧
    (Counselor.init ⟨[⟨((45 : ℝ), (0 : ℝ)), true⟩]⟩ ⟨⟨[]⟩, []⟩ =
      .error "correspondence mismatch: sensor_data.stars.count == catalogue.count failed" ∧
    ∀ c : Counselor, Counselor.init ⟨[⟨((45 : ℝ), (0 : ℝ)), true⟩]⟩ ⟨⟨[]⟩, []⟩ ≠ .ok c) :=
  ⟨by decide, C2_init_mismatch_rejected ⟨[⟨((45 : ℝ), (0 : ℝ)), true⟩]⟩ ⟨⟨[]⟩, []⟩ (by decide)⟩

/-- C9: pair(projection) on a Paired matcher returns the same matcher (its
type stays Counselor, its smoother and meteor data are untouched: there is
no transition back to Unpaired), and as a side effect it culls the invalid
entries from the catalogue and from the sensor dots, after which
count_valid equals count on both sides. -/
theorem C9_pair_culls_and_stays_paired (c : Counselor) (proj : Pt → Pt) :
    (c.pair proj).catalogue.entries =
        c.catalogue.entries.filter (fun e => e.valid) ∧
    (c.pair proj).sensor_data.stars.dots =
        c.sensor_data.stars.dots.filter (fun d => d.valid) ∧
    (c.pair proj).catalogue.count_valid = (c.pair proj).catalogue.count ∧
    (c.pair proj).sensor_data.stars.count_valid =
        (c.pair proj).sensor_data.stars.count ∧
    (c.pair proj).smoother = c.smoother ∧
    (c.pair proj).sensor_data.meteor = c.sensor_data.meteor := by
  refine ⟨rfl, rfl, ?_, ?_, rfl, rfl⟩
  · show ((c.catalogue.entries.filter _).filter _).length =
      (c.catalogue.entries.filter _).length
    rw [filter_idem]
  · show ((c.sensor_data.stars.dots.filter _).filter _).length =
      (c.sensor_data.stars.dots.filter _).length
    rw [filter_idem]

/-- C10: errors_inverse coincides with errors for every projection and
masking flag, by direct delegation. -/
theorem C10_errors_inverse_eq_errors (d : Pt → Pt → ℝ) (c : Counselor)
    (proj : Pt → Pt) (masked : Bool) :
    c.errors_inverse d proj masked = c.errors d proj masked := rfl

/-- C3: for every projection and every Paired matcher whose smoother has
been built, correct_meteor is exactly the composition the spec describes:
with xy the meteor track samples projected through the Distortion
Projection Model and mapped to unit-disk coordinates, the result is
disk_to_altaz applied to xy plus the smoother correction evaluated at xy. -/
theorem C3_correct_meteor_composition (cat : Catalogue) (sd : SensorData)
    (s : Pt → Pt) (p2d d2a : Pt → Pt) (proj : Pt → Pt) :
    Counselor.correct_meteor p2d d2a ⟨cat, sd, some s⟩ proj =
      some ((addPts ((sd.meteorProject proj).map p2d)
        (((sd.meteorProject proj).map p2d).map s)).map d2a) := rfl

/-- C4: for a Paired matcher, errors(projection, masked) is a direct
index-wise computation: its i-th entry is the pointwise great-circle
distance applied to the i-th projected sensor dot (altitude converted to
co-altitude) and the i-th catalogue star (converted to radians), with no
search over the catalogue. -/
theorem C4_errors_indexwise (d : Pt → Pt → ℝ) (c : Counselor) (proj : Pt → Pt)
    (masked : Bool) (i : ℕ)
    (hi : i < (c.errors d proj masked).length)
    (h1 : i < (c.sensor_data.stars.project proj masked).length)
    (h2 : i < (c.catalogue.to_altaz_deg masked).length) :
    (c.errors d proj masked).get ⟨i, hi⟩ =
      d (coaltPt ((c.sensor_data.stars.project proj masked).get ⟨i, h1⟩))
        (radiansPt ((c.catalogue.to_altaz_deg masked).get ⟨i, h2⟩)) := by
  simp only [Counselor.errors, Counselor.compute_distances, spherical_distance,
    List.get_eq_getElem, List.getElem_zipWith, List.getElem_map]

/-- Witness for C4 at a concrete matcher, projection and index. -/
theorem C4_errors_indexwise_witness :
    (exampleCounselor.errors exampleDist (fun p => p) true).get ⟨0, by decide⟩ =
      exampleDist
        (coaltPt ((exampleCounselor.sensor_data.stars.project (fun p => p) true).get
          ⟨0, by decide⟩))
        (radiansPt ((exampleCounselor.catalogue.to_altaz_deg true).get ⟨0, by decide⟩)) :=
  C4_errors_indexwise exampleDist exampleCounselor (fun p => p) true 0
    (by decide) (by decide) (by decide)

/-- C6 amended: compute_distances and compute_vector_errors leave the
catalogue argument array unchanged, but they are not pure in the observed
argument: the in-place numpy assignment overwrites the altitude column of
the observed array with its co-altitude, pi/2 minus altitude. -/
theorem C6_geometry_frame_effect (d : Pt → Pt → ℝ) (observed catalogue : List Pt) :
    (Counselor.compute_distances d observed catalogue).2.2 = catalogue ∧
    (Counselor.compute_distances d observed catalogue).2.1 = observed.map coaltPt ∧
    (Counselor.compute_vector_errors observed catalogue).2.2 = catalogue ∧
    (Counselor.compute_vector_errors observed catalogue).2.1 = observed.map coaltPt :=
  ⟨rfl, rfl, rfl, rfl⟩

/-- Counterexample to C6 as stated: at the observed array [(0, 0)],
compute_distances does not leave the observed array unchanged — its
altitude entry becomes pi/2 in place. -/
theorem C6_counterexample :
    (Counselor.compute_distances (fun _ _ => (0 : ℝ))
      [((0 : ℝ), (0 : ℝ))] []).2.1 ≠ [((0 : ℝ), (0 : ℝ))] := by
  simp only [Counselor.compute_distances, List.map_cons, List.map_nil, coaltPt,
    ne_eq, List.cons.injEq, Prod.mk.injEq, sub_zero]
  intro h
  have hpi : Real.pi / 2 = 0 := h.1.1
  have := Real.pi_ne_zero
  apply this
  linarith

/-- C7: building the 12-tuple of projection constants from the parameter
widgets (getConstantsTuple converts exactly a0, F, eps, E with np.radians
and passes the other eight values through) and writing an unchanged
optimizer result back (the setValue block of minimize applies np.degrees
to exactly those four positions) restores every stored-in-degrees widget
value. -/
theorem C7_degree_radian_boundary_roundtrip (w : ParamWidgets) :
    MainWindow.minimizeWriteBack (MainWindow.getConstantsTuple w) = w := by
  cases w
  simp [MainWindow.minimizeWriteBack, MainWindow.getConstantsTuple, degreesR_radiansD]

/-- The initial vector is among the visited iterates. -/
theorem iteratesList_self_mem {α : Type} (step : α → α) (x0 : α) (n : ℕ) :
    x0 ∈ iteratesList step x0 n := by
  cases n <;> simp [iteratesList]

/-- The running best over a candidate list is the running start or one of
the candidates. -/
theorem bestOf_mem_cons {α : Type} (f : α → ℝ) :
    ∀ (l : List α) (b : α), bestOf f b l = b ∨ bestOf f b l ∈ l := by
  intro l
  induction l with
  | nil => intro b; left; rfl
  | cons a t ih =>
    intro b
    simp only [bestOf]
    by_cases hf : f a < f b
    · rw [if_pos hf]
      rcases ih a with h | h
      · right; rw [h]; exact List.mem_cons_self a t
      · right; exact List.mem_cons_of_mem a h
    · rw [if_neg hf]
      rcases ih b with h | h
      · left; exact h
      · right; exact List.mem_cons_of_mem a h

/-- The running best over a candidate list has error at most that of the
running start and of every candidate. -/
theorem bestOf_le_all {α : Type} (f : α → ℝ) :
    ∀ (l : List α) (b : α),
      f (bestOf f b l) ≤ f b ∧ ∀ y ∈ l, f (bestOf f b l) ≤ f y := by
  intro l
  induction l with
  | nil => intro b; exact ⟨le_refl _, by simp⟩
  | cons a t ih =>
    intro b
    simp only [bestOf]
    by_cases hf : f a < f b
    · rw [if_pos hf]
      obtain ⟨h1, h2⟩ := ih a
      refine ⟨le_trans h1 hf.le, ?_⟩
      intro y hy
      rcases List.mem_cons.mp hy with rfl | hy
      · exact h1
      · exact h2 y hy
    · rw [if_neg hf]
      obtain ⟨h1, h2⟩ := ih b
      refine ⟨h1, ?_⟩
      intro y hy
      rcases List.mem_cons.mp hy with rfl | hy
      · exact le_trans h1 (le_of_not_lt hf)
      · exact h2 y hy

/-- C5 fails on the code: at the failing input of one observed point with
azimuth 0 and one catalogue star at azimuth 360 degrees (the same
physical direction), the azimuth component of the vector error reported
through spherical_difference is the raw difference minus 2 pi, which
differs from its value wrapped modulo 2 pi (namely 0): the azimuth
residual is used unwrapped, as the BROKEN marker in
Counselor.compute_vector_errors records. -/
theorem C5_azimuth_residual_not_wrapped :
    (Counselor.compute_vector_errors [((0 : ℝ), (0 : ℝ))]
        [((0 : ℝ), (360 : ℝ))]).1 = [(Real.pi / 2, -(2 * Real.pi))] ∧
    wrapTwoPi (-(2 * Real.pi)) = 0 ∧
    (-(2 * Real.pi) : ℝ) ≠ wrapTwoPi (-(2 * Real.pi)) := by
  have h2 : (2 : ℝ) * Real.pi ≠ 0 := by
    simp [Real.pi_ne_zero]
  have hwrap : wrapTwoPi (-(2 * Real.pi)) = 0 := by
    unfold wrapTwoPi
    rw [neg_div, div_self h2]
    have hf : ⌊(-1 : ℝ)⌋ = -1 := by
      have := Int.floor_intCast (α := ℝ) (-1)
      simpa using this
    rw [hf]
    push_cast
    ring
  refine ⟨?_, hwrap, ?_⟩
  · simp only [Counselor.compute_vector_errors, spherical_difference, coaltPt,
      radiansPt, radiansD, List.map_cons, List.map_nil, List.zipWith_cons_cons,
      List.zipWith_nil_right, List.cons.injEq, Prod.mk.injEq, and_true]
    constructor <;> ring
  · rw [hwrap]
    simp [Real.pi_ne_zero]

/-- C8: the modelled Calibration Optimizer never raises: for every error
function, search step, tolerance, initial 12-parameter vector and
iteration budget it returns ok with a result whose parameter vector
result.x is the best vector among the visited iterates (so it is returned
even when the budget is exhausted without convergence), together with the
iteration-count indicator. -/
theorem C8_minimize_never_raises (f : ConstantsTuple → ℝ)
    (step : ConstantsTuple → ConstantsTuple) (tol : ℝ) (x0 : ConstantsTuple)
    (maxiter : ℕ) :
    ∃ r : MinimizeResult,
      Matcher.minimize f step tol x0 maxiter = Except.ok r ∧
      r.x ∈ iteratesList step x0 maxiter ∧
      (∀ y ∈ iteratesList step x0 maxiter, f r.x ≤ f y) ∧
      r.nit = maxiter := by
  refine ⟨_, rfl, ?_, ?_, rfl⟩
  · show bestOf f x0 (iteratesList step x0 maxiter) ∈ iteratesList step x0 maxiter
    rcases bestOf_mem_cons f (iteratesList step x0 maxiter) x0 with h | h
    · rw [h]; exact iteratesList_self_mem step x0 maxiter
    · exact h
  · show ∀ y ∈ iteratesList step x0 maxiter,
      f (bestOf f x0 (iteratesList step x0 maxiter)) ≤ f y
    exact (bestOf_le_all f (iteratesList step x0 maxiter) x0).2

end Vasco
